import Mathlib

/-!
Shallow embedding of the prediction-orchestrator core of the
Multi-Agent-Fake-News-Detection-System repository (src/core), together with
theorems settling the frozen specification claims.

Modelling conventions:
* Python floats are embedded as exact rationals (`ℚ`).  Python `round(x, n)`
  rounds half to even; `roundHalfEven` below implements that convention on
  rationals.
* Python dicts with string keys are embedded as association lists
  (`List (String × _)`); assignment overwrites, lookup takes the first match.
* Wall-clock readings (`time.time()`, `datetime.now()`, `date.today()`) are
  explicit parameters of the embedded functions.
* Text handling models the ASCII fragment of Python `str` semantics
  (`lower`, `strip`, `isalpha`, `isupper`).
* The regular-expression engine of the Python `re` library (an external
  dependency, not repository code) is abstracted: the clickbait pattern
  scan of `HeuristicAnalyzer` is a function parameter `findMatches`
  standing for the concatenated `findall` results over the fixed
  `CLICKBAIT_PATTERNS` list; everything the repository itself computes from
  those matches is embedded.  Word and ALL-CAPS token extraction
  (`\x5cb[a-z]+\x5cb`, `\x5cb[A-Z]\x7b3,\x7d\x5cb`) reduce to maximal
  word-character runs and are embedded directly.
-/

/-- Python `round(x * 10000) / 10000` helper: round half to even on `ℚ`,
mirroring Python 3 `round` semantics on exact values. -/
def roundHalfEven (x : ℚ) : ℤ :=
  if x - (⌊x⌋ : ℚ) = 1/2 then (if ⌊x⌋ % 2 = 0 then ⌊x⌋ else ⌊x⌋ + 1) else round x

/-- Embedding of Python `round(x, 4)` on exact rationals. -/
def round4 (x : ℚ) : ℚ := (roundHalfEven (x * 10000) : ℚ) / 10000

theorem roundHalfEven_nonneg {x : ℚ} (hx : 0 ≤ x) : 0 ≤ roundHalfEven x := by
  unfold roundHalfEven
  have hfl : (0 : ℤ) ≤ ⌊x⌋ := by
    rw [Int.le_floor]; exact_mod_cast hx
  split
  · split
    · exact hfl
    · omega
  · rw [round_eq, Int.le_floor]
    push_cast
    linarith

theorem roundHalfEven_le {x : ℚ} {n : ℤ} (hx : x ≤ n) : roundHalfEven x ≤ n := by
  unfold roundHalfEven
  split
  · rename_i h
    have hfl : (⌊x⌋ : ℚ) = x - 1/2 := by linarith
    have : (⌊x⌋ : ℚ) < n := by
      rw [hfl]; linarith
    have hlt : ⌊x⌋ < n := by exact_mod_cast this
    split <;> omega
  · rw [round_eq]
    have : ⌊x + 1/2⌋ < n + 1 := by
      rw [Int.floor_lt]
      push_cast
      linarith
    omega

theorem round4_nonneg {x : ℚ} (hx : 0 ≤ x) : 0 ≤ round4 x := by
  unfold round4
  have h : (0 : ℤ) ≤ roundHalfEven (x * 10000) :=
    roundHalfEven_nonneg (by positivity)
  have : (0 : ℚ) ≤ (roundHalfEven (x * 10000) : ℚ) := by exact_mod_cast h
  positivity

theorem round4_le_one {x : ℚ} (hx : x ≤ 1) : round4 x ≤ 1 := by
  unfold round4
  have h : roundHalfEven (x * 10000) ≤ (10000 : ℤ) :=
    roundHalfEven_le (by push_cast; linarith)
  have : (roundHalfEven (x * 10000) : ℚ) ≤ 10000 := by exact_mod_cast h
  linarith

theorem round4_mem_unit {x : ℚ} (h0 : 0 ≤ x) (h1 : x ≤ 1) :
    0 ≤ round4 x ∧ round4 x ≤ 1 :=
  ⟨round4_nonneg h0, round4_le_one h1⟩

/-! ## Configuration (src/core/config.py, class `Config`) -/

/-- Embedding of `Config` (src/core/config.py); field defaults are the
dataclass defaults.  `ensemble_weights` is the default weight table. -/
structure Config where
  hf_api_key : String := ""
  gemini_api_key : String := ""
  groq_api_key : String := ""
  hf_daily_quota : ℕ := 30000
  gemini_daily_quota : ℕ := 1500
  groq_daily_quota : ℕ := 14400
  ensemble_weights : List (String × ℚ) :=
    [("huggingface", 0.40), ("llm", 0.35), ("heuristic", 0.25)]
  fake_threshold : ℚ := 0.7
  real_threshold : ℚ := 0.3
  min_confidence : ℚ := 0.6
  max_text_length : ℕ := 5000
  min_text_length : ℕ := 50
  cache_ttl_hours : ℚ := 24
  model_timeout : ℚ := 10
deriving DecidableEq

/-- The default configuration (`Config()` with no secrets). -/
def defaultConfig : Config := {}

/-- Python `dict.get(key, default)` on an association list of rationals. -/
def dictLookupD (l : List (String × ℚ)) (k : String) (d : ℚ) : ℚ :=
  match l.find? (fun p => p.1 == k) with
  | some p => p.2
  | none => d

/-! ## Data shapes consumed and produced by `EnsemblePredictor._aggregate_results`
(src/core/ensemble.py) -/

/-- One entry of the `model_scores` table built by `_aggregate_results`. -/
structure ModelScore where
  model_name : String
  fake_probability : ℚ
  confidence : ℚ
  processing_time : ℚ
  weight : ℚ
deriving DecidableEq

/-- One entry of `indicator_details` as produced by
`HeuristicAnalyzer.analyze` (an `IndicatorResult` rendered as a dict). -/
structure IndicatorDetail where
  name : String
  score : ℚ
  severity : String
  description : String
  «matches» : List String
deriving DecidableEq

/-- A backend result dict, restricted to the keys `_aggregate_results`
reads.  Every backend in the repository populates `model_name`,
`fake_probability`, `confidence` and `processing_time`; only the heuristic
populates `indicators` / `indicator_details` (the dict-lookup defaults of
the source are therefore never exercised and the fields are plain). -/
structure ModelResult where
  model_name : String
  fake_probability : ℚ
  confidence : ℚ
  processing_time : ℚ
  indicators : List (String × ℚ) := []
  indicator_details : List IndicatorDetail := []
deriving DecidableEq

/-- The aggregated verdict dict returned by `_aggregate_results` /
`_create_fallback_result` (src/core/ensemble.py). -/
structure AggResult where
  prediction : String
  fake_probability : ℚ
  confidence : ℚ
  models_used : List String
  model_scores : List ModelScore
  indicators : List (String × ℚ)
  indicator_details : List IndicatorDetail
  explanation : String
  processing_time : ℚ
  timestamp : String
  cached : Bool
deriving DecidableEq

/-! ## Aggregation (src/core/ensemble.py) -/

/-- The literal `weight_mapping` dict of `_aggregate_results`. -/
def weight_mapping : List (String × String) :=
  [("heuristic", "heuristic"), ("huggingface", "huggingface"),
   ("gemini", "llm"), ("groq", "llm")]

/-- `weight_mapping.get(model_name, model_name)`. -/
def weightKey (model_name : String) : String :=
  match weight_mapping.find? (fun p => p.1 == model_name) with
  | some p => p.2
  | none => model_name

/-- `_determine_verdict` (src/core/ensemble.py lines 251-265). -/
def determine_verdict (cfg : Config) (fake_probability confidence : ℚ) : String :=
  if confidence < cfg.min_confidence then "UNCERTAIN"
  else if cfg.fake_threshold ≤ fake_probability then "FAKE"
  else if fake_probability ≤ cfg.real_threshold then "REAL"
  else "UNCERTAIN"

/-- Python `f-string` fragment `f"\x7bx*100:.0f\x7d"` on an exact rational. -/
def fmtPct0 (x : ℚ) : String := toString (roundHalfEven (x * 100))

/-- Python `f-string` fragment `f"\x7bx:.1%\x7d"` on an exact rational
(percentage with one decimal digit). -/
def fmtPct1 (x : ℚ) : String :=
  let m := roundHalfEven (x * 1000)
  toString (m / 10) ++ "." ++ toString (m % 10) ++ "%"

/-- `min` over a list of rationals (Python `min(scores)`, only evaluated on
non-empty lists in the source). -/
def listMin : List ℚ → ℚ
  | [] => 0
  | h :: t => t.foldl min h

/-- `max` over a list of rationals (Python `max(scores)`). -/
def listMax : List ℚ → ℚ
  | [] => 0
  | h :: t => t.foldl max h

/-- `_generate_explanation` (src/core/ensemble.py lines 267-313). -/
def generate_explanation (prediction : String) (fake_probability confidence : ℚ)
    (model_scores : List ModelScore) (indicators : List (String × ℚ)) : String :=
  let part1 :=
    if prediction == "FAKE" then
      "This article shows strong indicators of misinformation (fake probability: " ++
        fmtPct0 fake_probability ++ "%)."
    else if prediction == "REAL" then
      "This article appears to be authentic (fake probability: " ++
        fmtPct0 fake_probability ++ "%)."
    else
      "The analysis is inconclusive (fake probability: " ++
        fmtPct0 fake_probability ++ "%)."
  let parts1 := [part1]
  let parts2 :=
    if 1 < model_scores.length then
      let scores := model_scores.map (fun m => m.fake_probability)
      let min_score := listMin scores
      let max_score := listMax scores
      if max_score - min_score < 0.2 then
        parts1 ++ ["All models are in agreement."]
      else
        parts1 ++ ["Model predictions vary from " ++ fmtPct0 min_score ++
          "% to " ++ fmtPct0 max_score ++ "%."]
    else parts1
  let high_indicators := (indicators.filter (fun p => 0.5 ≤ p.2)).map (fun p => p.1)
  let parts3 :=
    if high_indicators.isEmpty then parts2
    else
      let formatted := String.intercalate ", "
        (high_indicators.map (fun name => name.replace "_" " "))
      parts2 ++ ["Key concerns: " ++ formatted ++ "."]
  let parts4 :=
    if confidence < 0.7 then
      parts3 ++ ["Note: Confidence is moderate. Consider additional verification."]
    else parts3
  String.intercalate " " parts4

/-- `_create_fallback_result` (src/core/ensemble.py lines 315-329);
`nowIso` stands for `datetime.now().isoformat()`. -/
def create_fallback_result (nowIso : String) : AggResult :=
  { prediction := "UNCERTAIN"
    fake_probability := 0.5
    confidence := 0.0
    models_used := []
    model_scores := []
    indicators := []
    indicator_details := []
    explanation := "Unable to analyze: all models failed. Please try again."
    processing_time := 0
    timestamp := nowIso
    cached := false }

/-- Accumulator of the `for result in model_results` loop of
`_aggregate_results`. -/
structure AggAcc where
  weighted_prob : ℚ := 0
  weighted_conf : ℚ := 0
  total_weight : ℚ := 0
  models_used : List String := []
  model_scores : List ModelScore := []
  indicators : List (String × ℚ) := []
  indicator_details : List IndicatorDetail := []

/-- One iteration of the aggregation loop (src/core/ensemble.py lines
198-222). -/
def aggStep (cfg : Config) (acc : AggAcc) (result : ModelResult) : AggAcc :=
  let model_name := result.model_name
  let weight := dictLookupD cfg.ensemble_weights (weightKey model_name) 0.1
  let prob := result.fake_probability
  let conf := result.confidence
  { weighted_prob := acc.weighted_prob + prob * weight
    weighted_conf := acc.weighted_conf + conf * weight
    total_weight := acc.total_weight + weight
    models_used := acc.models_used ++ [model_name]
    model_scores := acc.model_scores ++
      [{ model_name := model_name, fake_probability := prob, confidence := conf,
         processing_time := result.processing_time, weight := weight }]
    indicators := if model_name == "heuristic" then result.indicators else acc.indicators
    indicator_details :=
      if model_name == "heuristic" then result.indicator_details else acc.indicator_details }

/-- `_aggregate_results` (src/core/ensemble.py lines 174-249); `nowIso`
feeds the timestamp of the fallback branch. -/
def aggregate_results (cfg : Config) (nowIso : String)
    (model_results : List ModelResult) : AggResult :=
  if model_results.isEmpty then create_fallback_result nowIso
  else
    let acc := model_results.foldl (aggStep cfg) {}
    let fake_probability :=
      if 0 < acc.total_weight then acc.weighted_prob / acc.total_weight else 0.5
    let confidence :=
      if 0 < acc.total_weight then acc.weighted_conf / acc.total_weight else 0.5
    let prediction := determine_verdict cfg fake_probability confidence
    let explanation := generate_explanation prediction fake_probability confidence
      acc.model_scores acc.indicators
    { prediction := prediction
      fake_probability := round4 fake_probability
      confidence := round4 confidence
      models_used := acc.models_used
      model_scores := acc.model_scores
      indicators := acc.indicators
      indicator_details := acc.indicator_details
      explanation := explanation
      processing_time := 0
      timestamp := ""
      cached := false }

/-! ## Heuristic indicator engine (src/core/heuristic.py, class
`HeuristicAnalyzer`) -/

/-- The ASCII whitespace characters stripped by Python `str.strip()`. -/
def pyWhitespace : List Char := [' ', '\t', '\n', '\r', Char.ofNat 11, Char.ofNat 12]

/-- ASCII fragment of Python `str.isspace` for a single character. -/
def pyIsSpace (c : Char) : Bool := pyWhitespace.contains c

/-- Python `str.strip()` (ASCII fragment). -/
def pyStrip (s : String) : String :=
  String.mk (((s.toList.dropWhile pyIsSpace).reverse.dropWhile pyIsSpace).reverse)

/-- Python `str.lower()` (ASCII fragment). -/
def pyLower (s : String) : String := String.mk (s.toList.map Char.toLower)

/-- ASCII model of the regex word class `\x5cw`. -/
def isWordChar (c : Char) : Bool := c.isAlphanum || c == '_'

/-- ASCII lowercase letter (regex class `[a-z]`). -/
def isLowerAZ (c : Char) : Bool := 'a' ≤ c && c ≤ 'z'

/-- ASCII uppercase letter (regex class `[A-Z]`). -/
def isUpperAZ (c : Char) : Bool := 'A' ≤ c && c ≤ 'Z'

/-- Maximal runs of characters satisfying `p`, in order of occurrence. -/
def runsBy (p : Char → Bool) : List Char → List (List Char)
  | [] => []
  | c :: cs =>
    if p c then (c :: cs.takeWhile p) :: runsBy p (cs.dropWhile p)
    else runsBy p cs
termination_by l => l.length
decreasing_by
  · exact Nat.lt_succ_of_le (List.Sublist.length_le (List.dropWhile_sublist p))
  · exact Nat.lt_succ_self cs.length

/-- `re.findall(r'\x5cb[a-z]+\x5cb', text_lower)`: on word-boundary grounds a
match must be a maximal word-character run consisting entirely of `[a-z]`. -/
def findallLowerWords (text_lower : String) : List String :=
  ((runsBy isWordChar text_lower.toList).filter (fun r => r.all isLowerAZ)).map
    (fun r => String.mk r)

/-- `re.findall(r'\x5cb[A-Z]\x7b3,\x7d\x5cb', text)`: maximal word-character
runs consisting entirely of `[A-Z]` with length at least 3. -/
def findallCapsWords (text : String) : List String :=
  ((runsBy isWordChar text.toList).filter
    (fun r => r.all isUpperAZ && 3 ≤ r.length)).map (fun r => String.mk r)

/-- The `EMOTIONAL_WORDS` lexicon (src/core/heuristic.py lines 23-34). -/
def EMOTIONAL_WORDS : List String :=
  ["shocking", "unbelievable", "incredible", "astonishing", "mindblowing",
   "jaw-dropping", "bombshell", "explosive", "stunning", "outrageous",
   "terrifying", "horrifying", "alarming", "devastating", "catastrophic",
   "dangerous", "deadly", "crisis", "emergency", "urgent",
   "disgraceful", "scandalous", "corrupt", "evil", "sinister",
   "betrayal", "conspiracy", "coverup", "exposed", "revealed",
   "amazing", "revolutionary", "breakthrough", "miracle", "secret",
   "banned", "censored", "forbidden", "hidden", "suppressed",
   "never", "always", "everyone", "nobody", "completely", "totally",
   "absolutely", "definitely", "proven", "confirmed"]

/-- `_get_severity` (src/core/heuristic.py lines 257-264). -/
def get_severity (score : ℚ) : String :=
  if 0.7 ≤ score then "HIGH"
  else if 0.4 ≤ score then "MEDIUM"
  else "LOW"

/-- `_analyze_emotional_language` (src/core/heuristic.py lines 132-152).
`words` is the set of distinct word tokens; the Python set is embedded as a
first-occurrence deduplicated list. -/
def analyze_emotional_language (text_lower : String) : IndicatorDetail :=
  let words := (findallLowerWords text_lower).dedup
  let found := words.filter (fun w => EMOTIONAL_WORDS.contains w)
  let word_count := words.length
  let score : ℚ :=
    if word_count = 0 then 0
    else min ((found.length : ℚ) / (word_count : ℚ) * 33) 1
  { name := "Emotional Language"
    score := round4 score
    severity := get_severity score
    description := "Found " ++ toString found.length ++ " emotionally charged words"
    «matches» := found.take 5 }

/-- `_analyze_clickbait_patterns` (src/core/heuristic.py lines 154-180);
`findMatches` abstracts the `re` engine pass over `CLICKBAIT_PATTERNS`. -/
def analyze_clickbait_patterns (findMatches : String → List String)
    (text_lower : String) : IndicatorDetail :=
  let found := findMatches text_lower
  let n := found.length
  let score : ℚ :=
    if n = 0 then 0.0
    else if n = 1 then 0.4
    else if n = 2 then 0.7
    else 1.0
  { name := "Clickbait Patterns"
    score := round4 score
    severity := get_severity score
    description := "Found " ++ toString n ++ " clickbait pattern(s)"
    «matches» := found.take 5 }

/-- `_analyze_excessive_punctuation` (src/core/heuristic.py lines 182-219). -/
def analyze_excessive_punctuation (text : String) : IndicatorDetail :=
  let cs := text.toList
  let total_chars := cs.length
  if total_chars = 0 then
    { name := "Excessive Punctuation", score := 0.0, severity := "LOW"
      description := "No text to analyze", «matches» := [] }
  else
    let exclamations := (cs.filter (fun c => c == '!')).length
    let questions := (cs.filter (fun c => c == '?')).length
    let emphatic_chars := exclamations + questions
    let repeated := ((runsBy (fun c => c == '!' || c == '?') cs).filter
      (fun r => 2 ≤ r.length)).length
    let ratio : ℚ := (emphatic_chars : ℚ) / (total_chars : ℚ)
    let score0 : ℚ :=
      if 0.05 < ratio then 1.0
      else if 0.02 < ratio then 0.5 + (ratio - 0.02) / 0.03 * 0.5
      else ratio / 0.02 * 0.5
    let score := min (score0 + (repeated : ℚ) * 0.1) 1.0
    { name := "Excessive Punctuation"
      score := round4 score
      severity := get_severity score
      description := "Found " ++ toString exclamations ++ "x \x27!\x27 and " ++
        toString questions ++ "x \x27?\x27 (" ++ fmtPct1 ratio ++ " of text)"
      «matches» :=
        if 0 < emphatic_chars then
          ["!×" ++ toString exclamations, "?×" ++ toString questions]
        else [] }

/-- `_analyze_caps_ratio` (src/core/heuristic.py lines 221-255). -/
def analyze_caps_ratio (text : String) : IndicatorDetail :=
  let letters := text.toList.filter Char.isAlpha
  let total_letters := letters.length
  if total_letters = 0 then
    { name := "ALL CAPS Usage", score := 0.0, severity := "LOW"
      description := "No letters to analyze", «matches» := [] }
  else
    let uppercase := (letters.filter Char.isUpper).length
    let ratio : ℚ := (uppercase : ℚ) / (total_letters : ℚ)
    let caps_words := findallCapsWords text
    let score : ℚ :=
      if 0.5 < ratio then 1.0
      else if 0.3 < ratio then 0.5 + (ratio - 0.3) / 0.2 * 0.5
      else ratio / 0.3 * 0.5
    { name := "ALL CAPS Usage"
      score := round4 score
      severity := get_severity score
      description := fmtPct1 ratio ++ " uppercase letters, " ++
        toString caps_words.length ++ " ALL CAPS words"
      «matches» := caps_words.take 5 }

/-- `_empty_result` (src/core/heuristic.py lines 266-280); `elapsed` stands
for the `time.time() - start_time` reading. -/
def empty_result (elapsed : ℚ) : ModelResult :=
  { model_name := "heuristic"
    fake_probability := 0.0
    confidence := 0.0
    processing_time := round4 elapsed
    indicators := [("emotional_language", 0.0), ("clickbait_patterns", 0.0),
                   ("excessive_punctuation", 0.0), ("caps_ratio", 0.0)]
    indicator_details := [] }

/-- `HeuristicAnalyzer.analyze` (src/core/heuristic.py lines 65-130).
`findMatches` abstracts the compiled `CLICKBAIT_PATTERNS` scan of the
external `re` library; `elapsed` is the wall-clock duration
`time.time() - start_time` of the call. -/
def analyze (findMatches : String → List String) (text : String)
    (elapsed : ℚ) : ModelResult :=
  if text.isEmpty || (pyStrip text).isEmpty then empty_result elapsed
  else
    let text_lower := pyLower text
    let text_stripped := pyStrip text
    let emotional_result := analyze_emotional_language text_lower
    let clickbait_result := analyze_clickbait_patterns findMatches text_lower
    let punctuation_result := analyze_excessive_punctuation text_stripped
    let caps_result := analyze_caps_ratio text_stripped
    let indicators : List (String × ℚ) :=
      [("emotional_language", emotional_result.score),
       ("clickbait_patterns", clickbait_result.score),
       ("excessive_punctuation", punctuation_result.score),
       ("caps_ratio", caps_result.score)]
    let fake_probability :=
      emotional_result.score * 0.25 + clickbait_result.score * 0.35 +
        punctuation_result.score * 0.20 + caps_result.score * 0.20
    let avg_extremity :=
      (abs (emotional_result.score - 0.5) * 2 + abs (clickbait_result.score - 0.5) * 2 +
        abs (punctuation_result.score - 0.5) * 2 + abs (caps_result.score - 0.5) * 2) / 4
    let confidence := min (0.5 + avg_extremity * 0.5) 0.85
    { model_name := "heuristic"
      fake_probability := round4 fake_probability
      confidence := round4 confidence
      processing_time := round4 elapsed
      indicators := indicators
      indicator_details :=
        [emotional_result, clickbait_result, punctuation_result, caps_result] }

/-! ## Content-addressed cache (src/core/cache.py, class `CacheManager`)

File persistence (`_save_cache` / `_load_cache`) is I/O mirrored to disk and
has no effect on the in-memory store; it is elided.  Times are rational
seconds; `datetime.now()` readings are explicit `now` parameters.  The
`hashlib.md5(...).hexdigest()[:12]` digest of the external `hashlib`
library is abstracted as a function parameter `hashFn`, and the
process-seeded Python builtin `hash` as `pyHash`. -/

/-- A cache entry `\x7btimestamp, text_preview, result\x7d`. -/
structure CacheEntry where
  timestamp : ℚ
  text_preview : String
  result : AggResult
deriving DecidableEq

/-- The mutable state of a `CacheManager`. -/
structure CacheState where
  cache : List (String × CacheEntry) := []
  hits : ℕ := 0
  misses : ℕ := 0
  ttl_hours : ℚ := 24
deriving DecidableEq

/-- Python dict lookup on an association list. -/
def alookup {α : Type} (l : List (String × α)) (k : String) : Option α :=
  match l.find? (fun p => p.1 == k) with
  | some p => some p.2
  | none => none

/-- Python dict assignment: overwrite in place, append when the key is new. -/
def aset {α : Type} (l : List (String × α)) (k : String) (v : α) :
    List (String × α) :=
  if l.any (fun p => p.1 == k) then
    l.map (fun p => if p.1 == k then (k, v) else p)
  else l ++ [(k, v)]

/-- Python `del d[k]`. -/
def aerase {α : Type} (l : List (String × α)) (k : String) : List (String × α) :=
  l.filter (fun p => !(p.1 == k))

/-- `_generate_key` (src/core/cache.py lines 36-40): digest of the
lower-cased, trimmed text. -/
def generate_key (hashFn : String → String) (text : String) : String :=
  hashFn (pyStrip (pyLower text))

/-- `_is_expired` (src/core/cache.py lines 62-73): `now > timestamp + ttl`.
Entries in this embedding always carry a well-formed timestamp, so the
missing/unparsable-timestamp branches are not exercised. -/
def is_expired (ttl_hours : ℚ) (now : ℚ) (entry : CacheEntry) : Bool :=
  decide (entry.timestamp + ttl_hours * 3600 < now)

/-- `_cleanup_expired` (src/core/cache.py lines 75-87). -/
def cleanup_expired (now : ℚ) (st : CacheState) : CacheState :=
  { st with cache := st.cache.filter (fun p => !(is_expired st.ttl_hours now p.2)) }

/-- `CacheManager.get` (src/core/cache.py lines 89-113).  The in-place
mutation `result["cached"] = True` on the stored dict is modeled by writing
the flagged result back into the entry (the source returns the stored
object itself); the `if result:` truthiness test is always true for a
verdict dict, which is never empty. -/
def cache_get (hashFn : String → String) (pyHash : String → ℕ) (now : ℚ)
    (text : String) (st : CacheState) : Option AggResult × CacheState :=
  let key := generate_key hashFn text
  let st1 := if pyHash key % 100 = 0 then cleanup_expired now st else st
  match alookup st1.cache key with
  | none => (none, { st1 with misses := st1.misses + 1 })
  | some entry =>
    if is_expired st1.ttl_hours now entry then
      (none, { st1 with misses := st1.misses + 1, cache := aerase st1.cache key })
    else
      let result := { entry.result with cached := true }
      (some result,
       { st1 with hits := st1.hits + 1,
                  cache := aset st1.cache key { entry with result := result } })

/-- `CacheManager.set` (src/core/cache.py lines 115-128). -/
def cache_set (hashFn : String → String) (now : ℚ) (text : String)
    (result : AggResult) (st : CacheState) : CacheState :=
  let key := generate_key hashFn text
  let entry : CacheEntry :=
    { timestamp := now
      text_preview :=
        if 100 < text.length then text.take 100 ++ "..." else text
      result := result }
  { st with cache := aset st.cache key entry }

/-! ## Remote backend adapter quota bookkeeping
(src/core/hf_client.py, class `HuggingFaceClient`; the Gemini and Groq
adapters share the identical `_check_quota_reset` / `_check_quota` /
`is_available` logic).  Dates are integers (days); network responses are an
explicit outcome parameter. -/

/-- Mutable adapter state of a `HuggingFaceClient`. -/
structure HFState where
  api_key : String
  hf_available : Bool
  has_client : Bool
  daily_quota : ℕ
  usage_today : ℕ
  last_reset_date : ℤ
  success_count : ℕ
  error_count : ℕ
  total_latency : ℚ
  last_success_time : Option ℚ := none
deriving DecidableEq

/-- `_check_quota_reset` (src/core/hf_client.py lines 51-55). -/
def check_quota_reset (st : HFState) (today : ℤ) : HFState :=
  if st.last_reset_date < today then
    { st with usage_today := 0, last_reset_date := today }
  else st

/-- `is_available` (src/core/hf_client.py lines 62-66); returns the value
together with the (possibly reset) state. -/
def hf_is_available (st : HFState) (today : ℤ) : Bool × HFState :=
  if st.api_key.isEmpty || !st.hf_available || !st.has_client then (false, st)
  else
    let st1 := check_quota_reset st today
    (decide (st1.usage_today < st1.daily_quota), st1)

/-- Outcome of the remote classification call inside `predict`: the
label/score pairs of a successful response, or a raised network error. -/
inductive HFNetOutcome where
  | ok (response : List (String × ℚ))
  | err
deriving DecidableEq

/-- Errors `predict` can propagate. -/
inductive HFError where
  | quotaExceeded
  | runtimeNoClient
  | providerFailure
deriving DecidableEq

/-- The result dict returned by `HuggingFaceClient.predict` (the
`raw_response` passthrough field is elided). -/
structure HFPrediction where
  model_name : String
  fake_probability : ℚ
  confidence : ℚ
  processing_time : ℚ
  sentiment : String
deriving DecidableEq

/-- `_parse_response` (src/core/hf_client.py lines 134-173) on a
well-formed label/score list; the defensive `except` branch (default
`0.5/0.5/unknown`) is unreachable on structured data and elided.  Returns
(fake_probability, confidence, sentiment). -/
def hf_parse_response (response : List (String × ℚ)) : ℚ × ℚ × String :=
  let scores := response.foldl (fun acc p => aset acc (pyLower p.1) p.2) []
  let negative := dictLookupD scores "negative" 0.0
  let neutral := dictLookupD scores "neutral" 0.0
  let positive := dictLookupD scores "positive" 0.0
  let fp0 := negative * 0.85 + positive * 0.4 + neutral * 0.15
  let fake_probability := max 0.0 (min 1.0 fp0)
  let max_score := max (max negative neutral) positive
  let confidence := max_score
  let sentiment :=
    if neutral ≤ negative && positive ≤ negative then "negative"
    else if negative ≤ neutral && positive ≤ neutral then "neutral"
    else "positive"
  (round4 fake_probability, round4 confidence, sentiment)

/-- `HuggingFaceClient.predict` (src/core/hf_client.py lines 94-132).
`today` is `date.today()`, `outcome` the remote call result, `elapsed` the
wall-clock duration, `now` the `datetime.now()` reading.  The third
component records whether the network executor was invoked. -/
def hf_predict (st : HFState) (today : ℤ) (outcome : HFNetOutcome)
    (elapsed : ℚ) (now : ℚ) : Except HFError HFPrediction × HFState × Bool :=
  let st := check_quota_reset st today
  if st.daily_quota ≤ st.usage_today then
    (Except.error HFError.quotaExceeded,
     { st with error_count := st.error_count + 1 }, false)
  else if !st.has_client then
    (Except.error HFError.runtimeNoClient,
     { st with error_count := st.error_count + 1 }, false)
  else
    match outcome with
    | HFNetOutcome.err =>
      (Except.error HFError.providerFailure,
       { st with error_count := st.error_count + 1 }, true)
    | HFNetOutcome.ok response =>
      let parsed := hf_parse_response response
      (Except.ok
        { model_name := "huggingface"
          fake_probability := parsed.1
          confidence := parsed.2.1
          processing_time := round4 elapsed
          sentiment := parsed.2.2 },
       { st with usage_today := st.usage_today + 1
                 success_count := st.success_count + 1
                 last_success_time := some now
                 total_latency := st.total_latency + elapsed }, true)

/-! ## Fallback chain and parallel fan-out (src/core/ensemble.py,
`_run_llm_with_fallback` lines 128-159 and `_run_models_parallel` lines
101-126).  Per-request backend behaviour is an explicit environment: key
configuration, `is_available()` answers, and call outcomes (success
payload, `QuotaExceededError`, or any other failure including timeout). -/

/-- Outcome of one remote backend call for the current request. -/
inductive LLMOutcome where
  | ok (fake_probability confidence processing_time : ℚ)
  | quotaErr
  | failure
deriving DecidableEq

/-- Per-request environment of `_run_models_parallel`. -/
structure OrchestraEnv where
  has_gemini_key : Bool
  gemini_available : Bool
  gemini_outcome : LLMOutcome
  has_groq_key : Bool
  groq_available : Bool
  groq_outcome : LLMOutcome
  has_hf_key : Bool
  hf_available : Bool
  hf_outcome : LLMOutcome
  heuristic_raises : Bool
deriving DecidableEq

/-- The Groq half of `_run_llm_with_fallback` (src/core/ensemble.py lines
144-159); returns the optional result and whether Groq was attempted. -/
def run_groq_branch (env : OrchestraEnv) : Option ModelResult × Bool :=
  if env.has_groq_key && env.groq_available then
    match env.groq_outcome with
    | LLMOutcome.ok fp c pt =>
      (some { model_name := "groq", fake_probability := fp, confidence := c,
              processing_time := pt }, true)
    | _ => (none, true)
  else (none, false)

/-- `_run_llm_with_fallback` (src/core/ensemble.py lines 128-159); returns
(result, gemini attempted, groq attempted). -/
def run_llm_with_fallback (env : OrchestraEnv) :
    Option ModelResult × Bool × Bool :=
  if env.has_gemini_key && env.gemini_available then
    match env.gemini_outcome with
    | LLMOutcome.ok fp c pt =>
      (some { model_name := "gemini", fake_probability := fp, confidence := c,
              processing_time := pt }, true, false)
    | _ =>
      let g := run_groq_branch env
      (g.1, true, g.2)
  else
    let g := run_groq_branch env
    (g.1, false, g.2)

/-- `_run_models_parallel` (src/core/ensemble.py lines 101-126): heuristic
(unless it raises), then HuggingFace if configured and available and
successful, then the fallback-chain LLM contribution if any. -/
def run_models_parallel (env : OrchestraEnv) (findMatches : String → List String)
    (text : String) (elapsed : ℚ) : List ModelResult :=
  let results1 : List ModelResult :=
    if env.heuristic_raises then [] else [analyze findMatches text elapsed]
  let results2 := results1 ++
    (if env.has_hf_key && env.hf_available then
      match env.hf_outcome with
      | LLMOutcome.ok fp c pt =>
        [{ model_name := "huggingface", fake_probability := fp, confidence := c,
           processing_time := pt }]
      | _ => []
    else [])
  results2 ++ (run_llm_with_fallback env).1.toList

/-! ## Shared evaluation lemmas -/

/-- `analyze` stamps the wall-clock duration into `processing_time` on both
branches. -/
theorem analyze_processing_time (fm : String → List String) (t : String) (e : ℚ) :
    (analyze fm t e).processing_time = round4 e := by
  unfold analyze
  split
  · rfl
  · rfl

/-- `analyze` always labels its result `heuristic`. -/
theorem analyze_model_name (fm : String → List String) (t : String) (e : ℚ) :
    (analyze fm t e).model_name = "heuristic" := by
  unfold analyze
  split
  · rfl
  · rfl

/-! ## Claim theorems -/

/-- C1: `_aggregate_results` on an empty backend-result list returns the
fixed fallback verdict — prediction UNCERTAIN, fake_probability 0.5,
confidence 0.0, empty `models_used` / `model_scores` / `indicators`, and
the total-failure explanation.  As a total Lean function it raises
nothing. -/
theorem aggregate_results_empty_fallback (cfg : Config) (nowIso : String) :
    (aggregate_results cfg nowIso []).prediction = "UNCERTAIN" ∧
    (aggregate_results cfg nowIso []).fake_probability = 0.5 ∧
    (aggregate_results cfg nowIso []).confidence = 0 ∧
    (aggregate_results cfg nowIso []).models_used = [] ∧
    (aggregate_results cfg nowIso []).model_scores = [] ∧
    (aggregate_results cfg nowIso []).indicators = [] ∧
    (aggregate_results cfg nowIso []).explanation =
      "Unable to analyze: all models failed. Please try again." := by
  refine ⟨rfl, by norm_num [aggregate_results, create_fallback_result], by
    norm_num [aggregate_results, create_fallback_result], rfl, rfl, rfl, rfl⟩

/-- C2: `_determine_verdict` decides in the documented order — confidence
below `min_confidence` forces UNCERTAIN; otherwise probability at or above
`fake_threshold` gives FAKE; otherwise probability at or below
`real_threshold` gives REAL; otherwise UNCERTAIN — and the configured
defaults are fake 0.7, real 0.3, min_confidence 0.6. -/
theorem determine_verdict_order (cfg : Config) (p c : ℚ) :
    (c < cfg.min_confidence → determine_verdict cfg p c = "UNCERTAIN") ∧
    (cfg.min_confidence ≤ c → cfg.fake_threshold ≤ p →
      determine_verdict cfg p c = "FAKE") ∧
    (cfg.min_confidence ≤ c → p < cfg.fake_threshold → p ≤ cfg.real_threshold →
      determine_verdict cfg p c = "REAL") ∧
    (cfg.min_confidence ≤ c → p < cfg.fake_threshold → cfg.real_threshold < p →
      determine_verdict cfg p c = "UNCERTAIN") ∧
    defaultConfig.fake_threshold = 0.7 ∧
    defaultConfig.real_threshold = 0.3 ∧
    defaultConfig.min_confidence = 0.6 := by
  unfold determine_verdict
  refine ⟨fun h => if_pos h, fun hc hp => ?_, fun hc hp1 hp2 => ?_,
    fun hc hp1 hp2 => ?_, rfl, rfl, rfl⟩
  · rw [if_neg (not_lt.mpr hc), if_pos hp]
  · rw [if_neg (not_lt.mpr hc), if_neg (not_le.mpr hp1), if_pos hp2]
  · rw [if_neg (not_lt.mpr hc), if_neg (not_le.mpr hp1),
      if_neg (not_le.mpr hp2)]

/-- Witness for C2 at concrete inputs. -/
theorem determine_verdict_order_witness :
    determine_verdict defaultConfig 0.85 0.8 = "FAKE" ∧
    determine_verdict defaultConfig 0.15 0.8 = "REAL" ∧
    determine_verdict defaultConfig 0.85 0.4 = "UNCERTAIN" ∧
    determine_verdict defaultConfig 0.5 0.8 = "UNCERTAIN" :=
  ⟨(determine_verdict_order defaultConfig 0.85 0.8).2.1 (by norm_num [defaultConfig])
      (by norm_num [defaultConfig]),
   (determine_verdict_order defaultConfig 0.15 0.8).2.2.1 (by norm_num [defaultConfig])
      (by norm_num [defaultConfig]) (by norm_num [defaultConfig]),
   (determine_verdict_order defaultConfig 0.85 0.4).1 (by norm_num [defaultConfig]),
   (determine_verdict_order defaultConfig 0.5 0.8).2.2.2.1 (by norm_num [defaultConfig])
      (by norm_num [defaultConfig]) (by norm_num [defaultConfig])⟩

/-- C8: on an empty or whitespace-only input, `HeuristicAnalyzer.analyze`
returns the degenerate result: zero probability, zero confidence, no
indicator details, and every indicator sub-score zero. -/
theorem analyze_blank_input (fm : String → List String) (text : String) (e : ℚ)
    (h : ∀ c ∈ text.toList, pyIsSpace c = true) :
    analyze fm text e = empty_result e ∧
    (analyze fm text e).fake_probability = 0 ∧
    (analyze fm text e).confidence = 0 ∧
    (analyze fm text e).indicator_details = [] ∧
    ∀ p ∈ (analyze fm text e).indicators, p.2 = 0 := by
  have hstrip : pyStrip text = "" := by
    unfold pyStrip
    have h1 : text.toList.dropWhile pyIsSpace = [] :=
      List.dropWhile_eq_nil_iff.mpr h
    rw [h1]
    rfl
  have hcond : (text.isEmpty || (pyStrip text).isEmpty) = true := by
    rw [hstrip]
    simp
    right
    rfl
  have heq : analyze fm text e = empty_result e := by
    unfold analyze
    rw [if_pos hcond]
  rw [heq]
  refine ⟨rfl, by norm_num [empty_result], by norm_num [empty_result], rfl, ?_⟩
  intro p hp
  simp only [empty_result] at hp
  fin_cases hp <;> norm_num

/-- Witness for C8 on the whitespace-only string of two blanks. -/
theorem analyze_blank_input_witness :
    analyze (fun _ => []) "  " 0 = empty_result 0 ∧
    (analyze (fun _ => []) "  " 0).fake_probability = 0 ∧
    (analyze (fun _ => []) "  " 0).confidence = 0 ∧
    (analyze (fun _ => []) "  " 0).indicator_details = [] ∧
    ∀ p ∈ (analyze (fun _ => []) "  " 0).indicators, p.2 = 0 :=
  analyze_blank_input (fun _ => []) "  " 0 (by decide)

/-- C9 counterexample: two `analyze` calls on the identical text but with
different wall-clock durations are not bit-identical — the
`processing_time` field differs. -/
theorem analyze_clock_counterexample :
    analyze (fun _ => []) "hello" 0 ≠ analyze (fun _ => []) "hello" 1 := by
  intro h
  have h2 := congrArg ModelResult.processing_time h
  rw [analyze_processing_time, analyze_processing_time] at h2
  norm_num [round4, roundHalfEven] at h2

/-- C9 amended: `analyze` is deterministic in its text input — every field
except the wall-clock `processing_time` agrees between two calls on the
same text, whatever the two clock readings are; with equal readings the
outputs are bit-identical. -/
theorem analyze_deterministic_modulo_time (fm : String → List String)
    (text : String) (e1 e2 : ℚ) :
    (analyze fm text e1).model_name = (analyze fm text e2).model_name ∧
    (analyze fm text e1).fake_probability = (analyze fm text e2).fake_probability ∧
    (analyze fm text e1).confidence = (analyze fm text e2).confidence ∧
    (analyze fm text e1).indicators = (analyze fm text e2).indicators ∧
    (analyze fm text e1).indicator_details = (analyze fm text e2).indicator_details := by
  cases hb : (text.isEmpty || (pyStrip text).isEmpty)
  · simp [analyze, hb]
  · simp [analyze, hb, empty_result]

/-- Evaluation of `_aggregate_results` on a one-element list: the weighted
mean collapses to `p * w / w` (or the no-weight default 0.5), then the
4-decimal rounding of the source is applied. -/
theorem aggregate_single_eval (cfg : Config) (nowIso : String) (r : ModelResult) :
    (aggregate_results cfg nowIso [r]).fake_probability =
      round4 (if 0 < dictLookupD cfg.ensemble_weights (weightKey r.model_name) 0.1
        then r.fake_probability * dictLookupD cfg.ensemble_weights (weightKey r.model_name) 0.1 /
          dictLookupD cfg.ensemble_weights (weightKey r.model_name) 0.1
        else 0.5) ∧
    (aggregate_results cfg nowIso [r]).confidence =
      round4 (if 0 < dictLookupD cfg.ensemble_weights (weightKey r.model_name) 0.1
        then r.confidence * dictLookupD cfg.ensemble_weights (weightKey r.model_name) 0.1 /
          dictLookupD cfg.ensemble_weights (weightKey r.model_name) 0.1
        else 0.5) := by
  constructor <;>
    simp only [aggregate_results, List.isEmpty_cons, Bool.false_eq_true, if_false,
      List.foldl_cons, List.foldl_nil, aggStep, zero_add]

/-- The concrete single backend result refuting exactness of C4: its
probability carries six decimal places. -/
def c4result : ModelResult :=
  { model_name := "heuristic", fake_probability := 0.123456, confidence := 0.5,
    processing_time := 0 }

/-- C4 counterexample: aggregating the one-element list `[c4result]` does
not return exactly that backend's `fake_probability` — the source rounds
the weighted mean to 4 decimal places (0.1235 versus 0.123456). -/
theorem aggregate_single_rounds_counterexample :
    (aggregate_results defaultConfig "" [c4result]).fake_probability ≠
      c4result.fake_probability := by
  have h := (aggregate_single_eval defaultConfig "" c4result).1
  have hw : dictLookupD defaultConfig.ensemble_weights (weightKey c4result.model_name) 0.1
      = 0.25 := rfl
  rw [hw] at h
  rw [h, if_pos (by norm_num : (0:ℚ) < 0.25)]
  have hv : c4result.fake_probability = 0.123456 := rfl
  rw [hv]
  norm_num [round4, roundHalfEven, round_eq]

/-- C4 amended: aggregating a single backend result whose looked-up weight
is positive returns that backend's probability and confidence rounded to 4
decimal places — hence exactly the backend's values whenever they already
carry at most 4 decimals, as every in-repo backend guarantees; the weight
cancels in the weighted mean. -/
theorem aggregate_single_exact (cfg : Config) (nowIso : String) (r : ModelResult)
    (hw : 0 < dictLookupD cfg.ensemble_weights (weightKey r.model_name) 0.1)
    (hp : round4 r.fake_probability = r.fake_probability)
    (hc : round4 r.confidence = r.confidence) :
    (aggregate_results cfg nowIso [r]).fake_probability = r.fake_probability ∧
    (aggregate_results cfg nowIso [r]).confidence = r.confidence := by
  obtain ⟨h1, h2⟩ := aggregate_single_eval cfg nowIso r
  rw [h1, h2, if_pos hw, if_pos hw, mul_div_cancel_right₀ _ (ne_of_gt hw),
    mul_div_cancel_right₀ _ (ne_of_gt hw)]
  exact ⟨hp, hc⟩

/-- The concrete backend result for the C4 witness: values carrying at
most 4 decimal places. -/
def hf4result : ModelResult :=
  { model_name := "huggingface", fake_probability := 0.75, confidence := 0.85,
    processing_time := 1 }

/-- Witness for C4 (amended) at a concrete HuggingFace-shaped result. -/
theorem aggregate_single_exact_witness :
    (aggregate_results defaultConfig "w" [hf4result]).fake_probability = 0.75 ∧
    (aggregate_results defaultConfig "w" [hf4result]).confidence = 0.85 :=
  aggregate_single_exact defaultConfig "w" hf4result
    (by
      rw [show dictLookupD defaultConfig.ensemble_weights
        (weightKey hf4result.model_name) 0.1 = 0.40 from rfl]
      norm_num)
    (by norm_num [round4, roundHalfEven, hf4result])
    (by norm_num [round4, roundHalfEven, hf4result])

/-! ## Range invariants of the heuristic sub-scores and the aggregator -/

/-- The emotional-language sub-score lies in [0,1]. -/
theorem emotional_score_mem (t : String) :
    0 ≤ (analyze_emotional_language t).score ∧ (analyze_emotional_language t).score ≤ 1 := by
  unfold analyze_emotional_language
  simp only []
  apply round4_mem_unit
  · split
    · exact le_refl 0
    · exact le_min (by positivity) (by norm_num)
  · split
    · norm_num
    · exact min_le_right _ _

/-- The clickbait sub-score lies in [0,1]. -/
theorem clickbait_score_mem (fm : String → List String) (t : String) :
    0 ≤ (analyze_clickbait_patterns fm t).score ∧
    (analyze_clickbait_patterns fm t).score ≤ 1 := by
  unfold analyze_clickbait_patterns
  simp only []
  apply round4_mem_unit <;> split_ifs <;> norm_num

/-- The excessive-punctuation sub-score lies in [0,1]. -/
theorem punct_score_mem (t : String) :
    0 ≤ (analyze_excessive_punctuation t).score ∧
    (analyze_excessive_punctuation t).score ≤ 1 := by
  unfold analyze_excessive_punctuation
  simp only []
  split
  · constructor <;> norm_num
  · apply round4_mem_unit
    · refine le_min ?_ (by norm_num)
      have hrep : (0:ℚ) ≤ (((runsBy (fun c => c == '!' || c == '?') t.toList).filter
          (fun r => decide (2 ≤ r.length))).length : ℚ) * 0.1 := by positivity
      have hratio : (0:ℚ) ≤ (((t.toList.filter (fun c => c == '!')).length +
          (t.toList.filter (fun c => c == '?')).length : ℕ) : ℚ) /
          (t.toList.length : ℚ) := by positivity
      split_ifs with hA hB
      · linarith
      · ring_nf
        ring_nf at hB hrep
        linarith
      · ring_nf
        ring_nf at hratio hrep
        linarith
    · exact le_trans (min_le_right _ _) (by norm_num)

/-- The caps-ratio sub-score lies in [0,1]. -/
theorem caps_score_mem (t : String) :
    0 ≤ (analyze_caps_ratio t).score ∧ (analyze_caps_ratio t).score ≤ 1 := by
  unfold analyze_caps_ratio
  simp only []
  split
  · constructor <;> norm_num
  · have hratio : (0:ℚ) ≤ (((t.toList.filter Char.isAlpha).filter Char.isUpper).length : ℚ) /
        ((t.toList.filter Char.isAlpha).length : ℚ) := by positivity
    have hratio1 : (((t.toList.filter Char.isAlpha).filter Char.isUpper).length : ℚ) /
        ((t.toList.filter Char.isAlpha).length : ℚ) ≤ 1 := by
      rename_i hne
      have hpos : (0:ℚ) < ((t.toList.filter Char.isAlpha).length : ℚ) := by
        have h0 : (t.toList.filter Char.isAlpha).length ≠ 0 := hne
        positivity
      rw [div_le_one hpos]
      exact_mod_cast Nat.cast_le.mpr (List.length_filter_le _ _)
    apply round4_mem_unit
    · split_ifs with hA hB
      · norm_num
      · ring_nf
        ring_nf at hB
        linarith
      · ring_nf
        ring_nf at hratio
        linarith
    · split_ifs with hA hB
      · norm_num
      · rw [not_lt] at hA
        ring_nf
        ring_nf at hA
        linarith
      · rw [not_lt] at hA hB
        ring_nf
        ring_nf at hB hratio
        linarith

/-- `analyze` returns a probability and a confidence in [0,1] for every
text, clock reading and clickbait matcher. -/
theorem analyze_unit_range (fm : String → List String) (text : String) (e : ℚ) :
    (0 ≤ (analyze fm text e).fake_probability ∧ (analyze fm text e).fake_probability ≤ 1) ∧
    (0 ≤ (analyze fm text e).confidence ∧ (analyze fm text e).confidence ≤ 1) := by
  unfold analyze
  split
  · constructor <;> constructor <;> norm_num [empty_result]
  · simp only []
    obtain ⟨he1, he2⟩ := emotional_score_mem (pyLower text)
    obtain ⟨hc1, hc2⟩ := clickbait_score_mem fm (pyLower text)
    obtain ⟨hp1, hp2⟩ := punct_score_mem (pyStrip text)
    obtain ⟨hca1, hca2⟩ := caps_score_mem (pyStrip text)
    constructor
    · apply round4_mem_unit <;> nlinarith
    · apply round4_mem_unit
      · refine le_min ?_ (by norm_num)
        have hq : (0:ℚ) ≤ (|(analyze_emotional_language (pyLower text)).score - 0.5| * 2 +
            |(analyze_clickbait_patterns fm (pyLower text)).score - 0.5| * 2 +
            |(analyze_excessive_punctuation (pyStrip text)).score - 0.5| * 2 +
            |(analyze_caps_ratio (pyStrip text)).score - 0.5| * 2) / 4 := by positivity
        nlinarith
      · exact le_trans (min_le_right _ _) (by norm_num)

/-- A weight looked up in a table of non-negative weights (with the 0.1
default of `_aggregate_results`) is non-negative. -/
theorem dictLookupD_nonneg (l : List (String × ℚ)) (k : String) (d : ℚ)
    (hl : ∀ p ∈ l, 0 ≤ p.2) (hd : 0 ≤ d) : 0 ≤ dictLookupD l k d := by
  unfold dictLookupD
  split
  · rename_i p hp
    exact hl p (List.mem_of_find?_eq_some hp)
  · exact hd

/-- Invariant of the aggregation loop: the running weighted sums stay
between 0 and the running total weight. -/
theorem agg_fold_bounds (cfg : Config) (hW : ∀ p ∈ cfg.ensemble_weights, 0 ≤ p.2)
    (rs : List ModelResult) :
    ∀ (acc : AggAcc),
      (∀ r ∈ rs, 0 ≤ r.fake_probability ∧ r.fake_probability ≤ 1 ∧
        0 ≤ r.confidence ∧ r.confidence ≤ 1) →
      0 ≤ acc.weighted_prob → acc.weighted_prob ≤ acc.total_weight →
      0 ≤ acc.weighted_conf → acc.weighted_conf ≤ acc.total_weight →
      0 ≤ acc.total_weight →
      0 ≤ (rs.foldl (aggStep cfg) acc).weighted_prob ∧
      (rs.foldl (aggStep cfg) acc).weighted_prob ≤ (rs.foldl (aggStep cfg) acc).total_weight ∧
      0 ≤ (rs.foldl (aggStep cfg) acc).weighted_conf ∧
      (rs.foldl (aggStep cfg) acc).weighted_conf ≤ (rs.foldl (aggStep cfg) acc).total_weight ∧
      0 ≤ (rs.foldl (aggStep cfg) acc).total_weight := by
  induction rs with
  | nil =>
    intro acc _ h1 h2 h3 h4 h5
    exact ⟨h1, h2, h3, h4, h5⟩
  | cons r rs ih =>
    intro acc hmem h1 h2 h3 h4 h5
    rw [List.foldl_cons]
    have hr := hmem r (List.mem_cons_self r rs)
    have hw0 : 0 ≤ dictLookupD cfg.ensemble_weights (weightKey r.model_name) 0.1 :=
      dictLookupD_nonneg _ _ _ hW (by norm_num)
    have hpw : 0 ≤ r.fake_probability * dictLookupD cfg.ensemble_weights (weightKey r.model_name) 0.1 :=
      mul_nonneg hr.1 hw0
    have hpw1 : r.fake_probability * dictLookupD cfg.ensemble_weights (weightKey r.model_name) 0.1 ≤
        dictLookupD cfg.ensemble_weights (weightKey r.model_name) 0.1 := by
      nlinarith [hr.2.1]
    have hcw : 0 ≤ r.confidence * dictLookupD cfg.ensemble_weights (weightKey r.model_name) 0.1 :=
      mul_nonneg hr.2.2.1 hw0
    have hcw1 : r.confidence * dictLookupD cfg.ensemble_weights (weightKey r.model_name) 0.1 ≤
        dictLookupD cfg.ensemble_weights (weightKey r.model_name) 0.1 := by
      nlinarith [hr.2.2.2]
    apply ih
    · intro x hx
      exact hmem x (List.mem_cons_of_mem r hx)
    · show 0 ≤ acc.weighted_prob + _
      linarith
    · show acc.weighted_prob + _ ≤ acc.total_weight + _
      linarith
    · show 0 ≤ acc.weighted_conf + _
      linarith
    · show acc.weighted_conf + _ ≤ acc.total_weight + _
      linarith
    · show 0 ≤ acc.total_weight + _
      linarith

/-- Evaluation of `_aggregate_results` on a non-empty list: the output
probability/confidence is the rounded weighted mean (or the 0.5 default
when the total weight is not positive). -/
theorem aggregate_eval_nonempty (cfg : Config) (nowIso : String)
    (r : ModelResult) (rs : List ModelResult) :
    (aggregate_results cfg nowIso (r :: rs)).fake_probability =
      round4 (if 0 < ((r :: rs).foldl (aggStep cfg) {}).total_weight
        then ((r :: rs).foldl (aggStep cfg) {}).weighted_prob /
          ((r :: rs).foldl (aggStep cfg) {}).total_weight
        else 0.5) ∧
    (aggregate_results cfg nowIso (r :: rs)).confidence =
      round4 (if 0 < ((r :: rs).foldl (aggStep cfg) {}).total_weight
        then ((r :: rs).foldl (aggStep cfg) {}).weighted_conf /
          ((r :: rs).foldl (aggStep cfg) {}).total_weight
        else 0.5) := by
  constructor <;>
    simp only [aggregate_results, List.isEmpty_cons, Bool.false_eq_true, if_false]

/-- `_aggregate_results` returns a probability and a confidence in [0,1]
whenever the backend inputs are in [0,1] and the configured weights are
non-negative. -/
theorem aggregate_unit_range (cfg : Config) (nowIso : String) (rs : List ModelResult)
    (hW : ∀ p ∈ cfg.ensemble_weights, 0 ≤ p.2)
    (hrs : ∀ r ∈ rs, 0 ≤ r.fake_probability ∧ r.fake_probability ≤ 1 ∧
      0 ≤ r.confidence ∧ r.confidence ≤ 1) :
    (0 ≤ (aggregate_results cfg nowIso rs).fake_probability ∧
      (aggregate_results cfg nowIso rs).fake_probability ≤ 1) ∧
    (0 ≤ (aggregate_results cfg nowIso rs).confidence ∧
      (aggregate_results cfg nowIso rs).confidence ≤ 1) := by
  cases rs with
  | nil =>
    constructor <;> constructor <;> norm_num [aggregate_results, create_fallback_result]
  | cons r rs =>
    obtain ⟨hf1, hf2, hf3, hf4, hf5⟩ := agg_fold_bounds cfg hW (r :: rs) {} hrs
      (le_refl _) (le_refl _) (le_refl _) (le_refl _) (le_refl _)
    obtain ⟨he1, he2⟩ := aggregate_eval_nonempty cfg nowIso r rs
    rw [he1, he2]
    constructor <;> apply round4_mem_unit
    · split_ifs with h
      · exact div_nonneg hf1 (le_of_lt h)
      · norm_num
    · split_ifs with h
      · rw [div_le_one h]
        exact hf2
      · norm_num
    · split_ifs with h
      · exact div_nonneg hf3 (le_of_lt h)
      · norm_num
    · split_ifs with h
      · rw [div_le_one h]
        exact hf4
      · norm_num

/-- C3: for every input text the heuristic engine returns a
fake_probability and confidence in [0,1], and for every backend-result
list with entries in [0,1] (and non-negative configured weights) the
aggregator returns a fake_probability and confidence in [0,1]. -/
theorem probability_confidence_unit_range :
    (∀ (fm : String → List String) (text : String) (e : ℚ),
      (0 ≤ (analyze fm text e).fake_probability ∧
        (analyze fm text e).fake_probability ≤ 1) ∧
      (0 ≤ (analyze fm text e).confidence ∧ (analyze fm text e).confidence ≤ 1)) ∧
    (∀ (cfg : Config) (nowIso : String) (rs : List ModelResult),
      (∀ p ∈ cfg.ensemble_weights, 0 ≤ p.2) →
      (∀ r ∈ rs, 0 ≤ r.fake_probability ∧ r.fake_probability ≤ 1 ∧
        0 ≤ r.confidence ∧ r.confidence ≤ 1) →
      (0 ≤ (aggregate_results cfg nowIso rs).fake_probability ∧
        (aggregate_results cfg nowIso rs).fake_probability ≤ 1) ∧
      (0 ≤ (aggregate_results cfg nowIso rs).confidence ∧
        (aggregate_results cfg nowIso rs).confidence ≤ 1)) :=
  ⟨fun fm text e => analyze_unit_range fm text e,
   fun cfg nowIso rs hW hrs => aggregate_unit_range cfg nowIso rs hW hrs⟩

/-- Witness for C3 at a concrete text and a concrete one-element result
list under the default configuration. -/
theorem probability_confidence_unit_range_witness :
    ((0 ≤ (analyze (fun _ => []) "hello" 0).fake_probability ∧
      (analyze (fun _ => []) "hello" 0).fake_probability ≤ 1) ∧
     (0 ≤ (analyze (fun _ => []) "hello" 0).confidence ∧
      (analyze (fun _ => []) "hello" 0).confidence ≤ 1)) ∧
    ((0 ≤ (aggregate_results defaultConfig ""
        [{ model_name := "huggingface", fake_probability := 1, confidence := 0,
           processing_time := 0 }]).fake_probability ∧
      (aggregate_results defaultConfig ""
        [{ model_name := "huggingface", fake_probability := 1, confidence := 0,
           processing_time := 0 }]).fake_probability ≤ 1) ∧
     (0 ≤ (aggregate_results defaultConfig ""
        [{ model_name := "huggingface", fake_probability := 1, confidence := 0,
           processing_time := 0 }]).confidence ∧
      (aggregate_results defaultConfig ""
        [{ model_name := "huggingface", fake_probability := 1, confidence := 0,
           processing_time := 0 }]).confidence ≤ 1)) :=
  ⟨probability_confidence_unit_range.1 (fun _ => []) "hello" 0,
   probability_confidence_unit_range.2 defaultConfig ""
     [{ model_name := "huggingface", fake_probability := 1, confidence := 0,
        processing_time := 0 }]
     (by
       intro p hp
       rw [show defaultConfig.ensemble_weights =
         [("huggingface", 0.40), ("llm", 0.35), ("heuristic", 0.25)] from rfl] at hp
       fin_cases hp <;> norm_num)
     (by
       intro r hr
       fin_cases hr
       norm_num)⟩

/-! ## Quota and fallback-chain theorems -/

/-- C6: once `usage_today` has reached `daily_quota` with no date rollover,
`is_available()` is false and `predict` fails with `QuotaExceeded` before
any network call and without changing `usage_today`; and the counter
resets to 0 as soon as the current date is past the stored reset date. -/
theorem hf_quota_invariant :
    (∀ (st : HFState) (today : ℤ),
      today ≤ st.last_reset_date →
      st.daily_quota ≤ st.usage_today →
      (hf_is_available st today).1 = false ∧
      (∀ (out : HFNetOutcome) (elapsed now : ℚ),
        (hf_predict st today out elapsed now).1 = Except.error HFError.quotaExceeded ∧
        (hf_predict st today out elapsed now).2.2 = false ∧
        ((hf_predict st today out elapsed now).2.1).usage_today = st.usage_today)) ∧
    (∀ (st : HFState) (today : ℤ),
      st.last_reset_date < today →
      (check_quota_reset st today).usage_today = 0) := by
  constructor
  · intro st today hday hq
    have hreset : check_quota_reset st today = st := by
      unfold check_quota_reset
      rw [if_neg (not_lt.mpr hday)]
    constructor
    · unfold hf_is_available
      split
      · rfl
      · rw [hreset]
        simp only [decide_eq_false_iff_not, not_lt]
        exact hq
    · intro out elapsed now
      unfold hf_predict
      rw [hreset, if_pos hq]
      exact ⟨rfl, rfl, rfl⟩
  · intro st today h
    unfold check_quota_reset
    rw [if_pos h]

/-- A concrete adapter state at its quota for the C6 witness. -/
def hfFullState : HFState :=
  { api_key := "k", hf_available := true, has_client := true, daily_quota := 5,
    usage_today := 5, last_reset_date := 10, success_count := 0, error_count := 0,
    total_latency := 0 }

/-- Witness for C6 at a concrete at-quota state. -/
theorem hf_quota_invariant_witness :
    (hf_is_available hfFullState 10).1 = false ∧
    (hf_predict hfFullState 10 HFNetOutcome.err 0 0).1 =
      Except.error HFError.quotaExceeded ∧
    (hf_predict hfFullState 10 HFNetOutcome.err 0 0).2.2 = false ∧
    ((hf_predict hfFullState 10 HFNetOutcome.err 0 0).2.1).usage_today =
      hfFullState.usage_today ∧
    (check_quota_reset { hfFullState with usage_today := 3 } 11).usage_today = 0 := by
  obtain ⟨h1, h2⟩ := hf_quota_invariant.1 hfFullState 10 (by norm_num [hfFullState])
    (by norm_num [hfFullState])
  obtain ⟨h3, h4, h5⟩ := h2 HFNetOutcome.err 0 0
  exact ⟨h1, h3, h4, h5,
    hf_quota_invariant.2 { hfFullState with usage_today := 3 } 11
      (by norm_num [hfFullState])⟩

/-- The Groq half of the fallback chain yields no result when Groq is
unconfigured, unavailable, or its call fails. -/
theorem run_groq_branch_none (env : OrchestraEnv)
    (h : env.has_groq_key = false ∨ env.groq_available = false ∨
      env.groq_outcome = LLMOutcome.quotaErr ∨ env.groq_outcome = LLMOutcome.failure) :
    (run_groq_branch env).1 = none := by
  unfold run_groq_branch
  rcases h with h | h | h | h
  · rw [h]
    simp
  · rw [h]
    simp
  · rw [h]
    split <;> simp_all
  · rw [h]
    split <;> simp_all

/-- A result list whose non-LLM prefix carries no gemini/groq entries
contains at most one LLM entry (the optional fallback-chain slot). -/
theorem llm_filter_le_one (l1 l2 : List ModelResult) (o : Option ModelResult)
    (h : ∀ r ∈ l1 ++ l2, ¬(r.model_name == "gemini" || r.model_name == "groq") = true) :
    ((l1 ++ l2 ++ o.toList).filter
      (fun r => r.model_name == "gemini" || r.model_name == "groq")).length ≤ 1 := by
  rw [List.filter_append, List.length_append]
  have h1 : ((l1 ++ l2).filter
      (fun r => r.model_name == "gemini" || r.model_name == "groq")).length = 0 := by
    rw [List.length_eq_zero, List.filter_eq_nil_iff]
    exact h
  have h2 : (o.toList.filter
      (fun r => r.model_name == "gemini" || r.model_name == "groq")).length ≤ 1 := by
    calc (o.toList.filter _).length ≤ o.toList.length := List.length_filter_le _ _
      _ ≤ 1 := by cases o <;> simp
  omega

/-- C7: Groq is attempted only when Gemini is unconfigured, unavailable or
its call failed (quota errors included); the fan-out result list carries at
most one LLM result; and when both LLM backends are unavailable or failing
the LLM contribution is `none` — no exception — and the remaining results
carry no LLM entry, so aggregation proceeds with them. -/
theorem llm_fallback_chain :
    (∀ (env : OrchestraEnv) (fp c pt : ℚ),
      env.has_gemini_key = true → env.gemini_available = true →
      env.gemini_outcome = LLMOutcome.ok fp c pt →
      (run_llm_with_fallback env).2.2 = false ∧
      (run_llm_with_fallback env).1 =
        some { model_name := "gemini", fake_probability := fp, confidence := c,
               processing_time := pt }) ∧
    (∀ env : OrchestraEnv, (run_llm_with_fallback env).2.2 = true →
      env.has_gemini_key = false ∨ env.gemini_available = false ∨
      env.gemini_outcome = LLMOutcome.quotaErr ∨
      env.gemini_outcome = LLMOutcome.failure) ∧
    (∀ (env : OrchestraEnv) (fm : String → List String) (text : String) (e : ℚ),
      ((run_models_parallel env fm text e).filter
        (fun r => r.model_name == "gemini" || r.model_name == "groq")).length ≤ 1) ∧
    (∀ (env : OrchestraEnv) (fm : String → List String) (text : String) (e : ℚ),
      (env.has_gemini_key = false ∨ env.gemini_available = false ∨
        env.gemini_outcome = LLMOutcome.quotaErr ∨
        env.gemini_outcome = LLMOutcome.failure) →
      (env.has_groq_key = false ∨ env.groq_available = false ∨
        env.groq_outcome = LLMOutcome.quotaErr ∨
        env.groq_outcome = LLMOutcome.failure) →
      (run_llm_with_fallback env).1 = none ∧
      ∀ r ∈ run_models_parallel env fm text e,
        r.model_name ≠ "gemini" ∧ r.model_name ≠ "groq") := by
  have hllm_none : ∀ env : OrchestraEnv,
      (env.has_gemini_key = false ∨ env.gemini_available = false ∨
        env.gemini_outcome = LLMOutcome.quotaErr ∨
        env.gemini_outcome = LLMOutcome.failure) →
      (env.has_groq_key = false ∨ env.groq_available = false ∨
        env.groq_outcome = LLMOutcome.quotaErr ∨
        env.groq_outcome = LLMOutcome.failure) →
      (run_llm_with_fallback env).1 = none := by
    intro env hg hq
    unfold run_llm_with_fallback
    rcases hg with h | h | h | h
    · rw [h]
      simp only [Bool.false_and, Bool.false_eq_true, if_false]
      exact run_groq_branch_none env hq
    · rw [h]
      simp only [Bool.and_false, Bool.false_eq_true, if_false]
      exact run_groq_branch_none env hq
    · rw [h]
      split
      · exact run_groq_branch_none env hq
      · exact run_groq_branch_none env hq
    · rw [h]
      split
      · exact run_groq_branch_none env hq
      · exact run_groq_branch_none env hq
  have hpart_names : ∀ (env : OrchestraEnv) (fm : String → List String)
      (text : String) (e : ℚ),
      ∀ r ∈ ((if env.heuristic_raises then [] else [analyze fm text e]) ++
        (if env.has_hf_key && env.hf_available then
          match env.hf_outcome with
          | LLMOutcome.ok fp c pt =>
            [{ model_name := "huggingface", fake_probability := fp, confidence := c,
               processing_time := pt }]
          | _ => []
        else [])),
      r.model_name = "heuristic" ∨ r.model_name = "huggingface" := by
    intro env fm text e r hr
    rw [List.mem_append] at hr
    rcases hr with hr | hr
    · split at hr
      · exact absurd hr (List.not_mem_nil r)
      · rw [List.mem_singleton] at hr
        rw [hr]
        exact Or.inl (analyze_model_name fm text e)
    · split at hr
      · split at hr
        · rw [List.mem_singleton] at hr
          rw [hr]
          exact Or.inr rfl
        · exact absurd hr (List.not_mem_nil r)
      · exact absurd hr (List.not_mem_nil r)
  refine ⟨?_, ?_, ?_, ?_⟩
  · intro env fp c pt hK hA hout
    exact ⟨by simp [run_llm_with_fallback, hK, hA, hout],
      by simp [run_llm_with_fallback, hK, hA, hout]⟩
  · intro env h
    cases hK : env.has_gemini_key with
    | false => exact Or.inl rfl
    | true =>
      cases hA : env.gemini_available with
      | false => exact Or.inr (Or.inl rfl)
      | true =>
        cases hout : env.gemini_outcome with
        | ok fp c pt =>
          exfalso
          simp [run_llm_with_fallback, hK, hA, hout] at h
        | quotaErr => exact Or.inr (Or.inr (Or.inl rfl))
        | failure => exact Or.inr (Or.inr (Or.inr rfl))
  · intro env fm text e
    unfold run_models_parallel
    apply llm_filter_le_one
    intro r hr
    rcases hpart_names env fm text e r hr with h | h <;> rw [h] <;> decide
  · intro env fm text e hg hq
    refine ⟨hllm_none env hg hq, ?_⟩
    intro r hr
    unfold run_models_parallel at hr
    rw [hllm_none env hg hq] at hr
    simp only [Option.toList_none, List.append_nil] at hr
    rcases hpart_names env fm text e r hr with h | h <;> rw [h] <;>
      exact ⟨by decide, by decide⟩

/-- Concrete environment for the C7 witness: Gemini configured, available
and succeeding. -/
def envGeminiOk : OrchestraEnv :=
  { has_gemini_key := true, gemini_available := true,
    gemini_outcome := LLMOutcome.ok 0.6 0.7 0.1,
    has_groq_key := true, groq_available := true,
    groq_outcome := LLMOutcome.failure,
    has_hf_key := false, hf_available := false,
    hf_outcome := LLMOutcome.failure, heuristic_raises := false }

/-- Concrete environment for the C7 witness: both LLM backends
unconfigured/failing. -/
def envBothDown : OrchestraEnv :=
  { has_gemini_key := false, gemini_available := false,
    gemini_outcome := LLMOutcome.quotaErr,
    has_groq_key := false, groq_available := false,
    groq_outcome := LLMOutcome.failure,
    has_hf_key := false, hf_available := false,
    hf_outcome := LLMOutcome.failure, heuristic_raises := false }

/-- Witness for C7 at the two concrete environments. -/
theorem llm_fallback_chain_witness :
    ((run_llm_with_fallback envGeminiOk).2.2 = false ∧
     (run_llm_with_fallback envGeminiOk).1 =
       some { model_name := "gemini", fake_probability := 0.6, confidence := 0.7,
              processing_time := 0.1 }) ∧
    ((run_llm_with_fallback envBothDown).1 = none ∧
     ∀ r ∈ run_models_parallel envBothDown (fun _ => []) "hello" 0,
       r.model_name ≠ "gemini" ∧ r.model_name ≠ "groq") :=
  ⟨llm_fallback_chain.1 envGeminiOk 0.6 0.7 0.1 rfl rfl rfl,
   llm_fallback_chain.2.2.2 envBothDown (fun _ => []) "hello" 0
     (Or.inl rfl) (Or.inl rfl)⟩

/-! ## Cache theorems -/

/-- Looking up a key just stored by dict assignment finds the new pair. -/
theorem find?_aset_self {α : Type} (l : List (String × α)) (k : String) (v : α) :
    (aset l k v).find? (fun p => p.1 == k) = some (k, v) := by
  unfold aset
  split
  · rename_i hany
    induction l with
    | nil => simp at hany
    | cons b t ih =>
      by_cases hb : (b.1 == k) = true
      · rw [List.map_cons, if_pos hb, List.find?_cons_of_pos _ (by simp)]
      · have hb' : (b.1 == k) = false := by
          cases hv : b.1 == k
          · rfl
          · exact absurd hv hb
        simp only [List.any_cons, hb', Bool.false_or] at hany
        rw [List.map_cons, if_neg (by simp [hb']),
          List.find?_cons_of_neg _ (by simp [hb'])]
        exact ih hany
  · rename_i hany
    induction l with
    | nil => simp
    | cons b t ih =>
      simp only [List.any_cons, Bool.or_eq_true, not_or] at hany
      have hb : (b.1 == k) = false := by
        cases hbeq : b.1 == k
        · rfl
        · exact absurd hbeq hany.1
      rw [List.cons_append, List.find?_cons_of_neg _ (by simp [hb])]
      exact ih hany.2

/-- Dict lookup after dict assignment at the same key returns the stored
value. -/
theorem alookup_aset {α : Type} (l : List (String × α)) (k : String) (v : α) :
    alookup (aset l k v) k = some v := by
  unfold alookup
  rw [find?_aset_self]

/-- A successful dict lookup comes from a `find?` hit on that exact key. -/
theorem alookup_find? {α : Type} (l : List (String × α)) (k : String) (v : α)
    (h : alookup l k = some v) : l.find? (fun p => p.1 == k) = some (k, v) := by
  unfold alookup at h
  cases hf : l.find? (fun p => p.1 == k) with
  | none => rw [hf] at h; simp at h
  | some p =>
    rw [hf] at h
    have hp : (p.1 == k) = true := by
      have := List.find?_some hf
      simpa using this
    have h1 : p.1 = k := eq_of_beq hp
    have h2 : p.2 = v := by
      simp only [Option.some.injEq] at h
      rw [h]
    cases p
    simp only at h1 h2
    rw [h1, h2]

/-- A `find?` hit whose witness survives a filter is still the first hit
after the filter. -/
theorem find?_filter_of_eq {α : Type} (p q : α → Bool) (l : List α) (a : α)
    (h : l.find? p = some a) (hq : q a = true) : (l.filter q).find? p = some a := by
  induction l with
  | nil => simp at h
  | cons b t ih =>
    by_cases hpb : p b = true
    · rw [List.find?_cons_of_pos _ hpb] at h
      have hab : b = a := by simpa using h
      subst hab
      rw [List.filter_cons, if_pos hq, List.find?_cons_of_pos _ hpb]
    · have hpb' : p b = false := by
        cases hv : p b
        · rfl
        · exact absurd hv hpb
      rw [List.find?_cons_of_neg _ (by simp [hpb'])] at h
      rw [List.filter_cons]
      split
      · rw [List.find?_cons_of_neg _ (by simp [hpb'])]
        exact ih h
      · exact ih h

/-- No `find?` hit on a key that occurs nowhere in the list. -/
theorem find?_eq_none_of_key_not_mem {α : Type} (l : List (String × α)) (k : String)
    (h : k ∉ l.map Prod.fst) : l.find? (fun p => p.1 == k) = none := by
  rw [List.find?_eq_none]
  intro x hx
  intro hbeq
  apply h
  rw [List.mem_map]
  exact ⟨x, hx, eq_of_beq (by simpa using hbeq)⟩

/-- With pairwise-distinct keys, filtering out the unique entry of a key
leaves no `find?` hit for it. -/
theorem find?_filter_of_expired {α : Type} (q : String × α → Bool)
    (l : List (String × α)) (k : String) (e : α)
    (hnd : (l.map Prod.fst).Nodup)
    (h : l.find? (fun p => p.1 == k) = some (k, e))
    (hq : q (k, e) = false) :
    (l.filter q).find? (fun p => p.1 == k) = none := by
  induction l with
  | nil => simp at h
  | cons b t ih =>
    rw [List.map_cons, List.nodup_cons] at hnd
    by_cases hb : (b.1 == k) = true
    · rw [@List.find?_cons_of_pos (String × α) (fun p => p.1 == k) b t hb] at h
      have hbe : b = (k, e) := by simpa using h
      subst hbe
      rw [List.filter_cons, hq]
      simp only [Bool.false_eq_true, if_false]
      apply find?_eq_none_of_key_not_mem
      intro hk
      apply hnd.1
      rw [List.mem_map] at hk ⊢
      obtain ⟨x, hx, hxx⟩ := hk
      exact ⟨x, List.mem_of_mem_filter hx, hxx⟩
    · have hb' : ¬((fun (p : String × α) => p.1 == k) b) = true := hb
      rw [@List.find?_cons_of_neg (String × α) (fun p => p.1 == k) b t hb'] at h
      rw [List.filter_cons]
      split
      · rw [@List.find?_cons_of_neg (String × α) (fun p => p.1 == k) b
          (List.filter q t) hb']
        exact ih hnd.2 h
      · exact ih hnd.2 h

/-- Lookup after `del d[k]` misses. -/
theorem alookup_aerase {α : Type} (l : List (String × α)) (k : String) :
    alookup (aerase l k) k = none := by
  unfold alookup aerase
  rw [List.find?_eq_none.mpr]
  intro x hx
  rw [List.mem_filter] at hx
  simp only [Bool.not_eq_eq_eq_not, Bool.not_true] at hx
  simp [hx.2]

/-- `get` on a stored, unexpired entry: hit with the cache flag set, and
the flagged result written back into the store (the in-place dict
mutation of the source). -/
theorem cache_get_fresh (hashFn : String → String) (pyHash : String → ℕ) (now : ℚ)
    (u : String) (st : CacheState) (e : CacheEntry)
    (hl : alookup st.cache (generate_key hashFn u) = some e)
    (hfresh : ¬(e.timestamp + st.ttl_hours * 3600 < now)) :
    (cache_get hashFn pyHash now u st).1 = some { e.result with cached := true } ∧
    alookup ((cache_get hashFn pyHash now u st).2).cache (generate_key hashFn u) =
      some { e with result := { e.result with cached := true } } := by
  have hfind := alookup_find? _ _ _ hl
  have hexp : is_expired st.ttl_hours now e = false := by
    simp only [is_expired, decide_eq_false_iff_not]
    exact hfresh
  simp only [cache_get]
  split_ifs with hclean
  · have hfind2 : ((cleanup_expired now st).cache).find?
        (fun p => p.1 == generate_key hashFn u) = some (generate_key hashFn u, e) := by
      unfold cleanup_expired
      apply find?_filter_of_eq _ _ _ _ hfind
      simp only [Bool.not_eq_eq_eq_not, Bool.not_false]
      exact hexp
    have hlook : alookup ((cleanup_expired now st).cache) (generate_key hashFn u) =
        some e := by
      unfold alookup
      rw [hfind2]
    simp only [hlook]
    have httl : (cleanup_expired now st).ttl_hours = st.ttl_hours := rfl
    rw [httl, hexp]
    simp only [Bool.false_eq_true, if_false]
    constructor
    · trivial
    · show alookup (aset (cleanup_expired now st).cache (generate_key hashFn u)
        { e with result := { e.result with cached := true } }) (generate_key hashFn u) = _
      exact alookup_aset _ _ _
  · simp only [hl]
    rw [hexp]
    simp only [Bool.false_eq_true, if_false]
    constructor
    · trivial
    · show alookup (aset st.cache (generate_key hashFn u)
        { e with result := { e.result with cached := true } }) (generate_key hashFn u) = _
      exact alookup_aset _ _ _

/-- `get` on a stored but expired entry (distinct keys): miss, and the
entry is gone from the store afterwards. -/
theorem cache_get_expired (hashFn : String → String) (pyHash : String → ℕ) (now : ℚ)
    (u : String) (st : CacheState) (e : CacheEntry)
    (hnd : (st.cache.map Prod.fst).Nodup)
    (hl : alookup st.cache (generate_key hashFn u) = some e)
    (hexp : e.timestamp + st.ttl_hours * 3600 < now) :
    (cache_get hashFn pyHash now u st).1 = none ∧
    alookup ((cache_get hashFn pyHash now u st).2).cache (generate_key hashFn u) =
      none := by
  have hfind := alookup_find? _ _ _ hl
  have hexpb : is_expired st.ttl_hours now e = true := by
    simp only [is_expired, decide_eq_true_eq]
    exact hexp
  simp only [cache_get]
  split_ifs with hclean
  · have hnone : ((cleanup_expired now st).cache).find?
        (fun p => p.1 == generate_key hashFn u) = none := by
      unfold cleanup_expired
      apply find?_filter_of_expired _ _ _ _ hnd hfind
      simp only [Bool.not_eq_eq_eq_not, Bool.not_true]
      exact hexpb
    have hlook : alookup ((cleanup_expired now st).cache) (generate_key hashFn u) =
        none := by
      unfold alookup
      rw [hnone]
    simp only [hlook]
    exact ⟨trivial, trivial⟩
  · simp only [hl]
    rw [hexpb]
    simp only [if_true]
    exact ⟨trivial, alookup_aerase _ _⟩

/-- C5: `set(T, V)` followed immediately by `get(T)` returns V with the
cache-hit flag set; `get` on any text with the same lower-cased trimmed
form is likewise a hit; and `get` after the TTL has elapsed since the
entry was created is a miss that removes the entry from the store. -/
theorem cache_round_trip (hashFn : String → String) (pyHash : String → ℕ)
    (now : ℚ) (t t2 : String) (V : AggResult) (st : CacheState)
    (httl : 0 ≤ st.ttl_hours)
    (hnorm : pyStrip (pyLower t2) = pyStrip (pyLower t)) :
    (cache_get hashFn pyHash now t (cache_set hashFn now t V st)).1 =
      some { V with cached := true } ∧
    (cache_get hashFn pyHash now t2 (cache_set hashFn now t V st)).1 =
      some { V with cached := true } ∧
    (∀ (e : CacheEntry) (now2 : ℚ),
      (st.cache.map Prod.fst).Nodup →
      alookup st.cache (generate_key hashFn t) = some e →
      e.timestamp + st.ttl_hours * 3600 < now2 →
      (cache_get hashFn pyHash now2 t st).1 = none ∧
      alookup ((cache_get hashFn pyHash now2 t st).2).cache
        (generate_key hashFn t) = none) := by
  have hit : ∀ u : String, generate_key hashFn u = generate_key hashFn t →
      (cache_get hashFn pyHash now u (cache_set hashFn now t V st)).1 =
        some { V with cached := true } := by
    intro u hu
    have hl0 := alookup_aset st.cache (generate_key hashFn t)
      ({ timestamp := now,
         text_preview := if 100 < t.length then t.take 100 ++ "..." else t,
         result := V })
    have hl : alookup (cache_set hashFn now t V st).cache (generate_key hashFn u) =
        some { timestamp := now,
               text_preview := if 100 < t.length then t.take 100 ++ "..." else t,
               result := V } := by
      rw [hu]
      exact hl0
    have hfr : ¬(now + st.ttl_hours * 3600 < now) := by
      intro hcon
      nlinarith [mul_nonneg httl (by norm_num : (0:ℚ) ≤ 3600)]
    exact (cache_get_fresh hashFn pyHash now u (cache_set hashFn now t V st) _ hl hfr).1
  refine ⟨hit t rfl, hit t2 (by unfold generate_key; rw [hnorm]), ?_⟩
  intro e now2 hnd hl hexp
  exact cache_get_expired hashFn pyHash now2 t st e hnd hl hexp

/-- A concrete verdict for the C5 witness. -/
def cacheV : AggResult :=
  { prediction := "REAL", fake_probability := 0.2, confidence := 0.9,
    models_used := [], model_scores := [], indicators := [],
    indicator_details := [], explanation := "", processing_time := 0,
    timestamp := "", cached := false }

/-- Witness for C5 at concrete texts, a concrete verdict and state. -/
theorem cache_round_trip_witness :
    (cache_get (fun _ => "k") (fun _ => 1) 0 "article"
      (cache_set (fun _ => "k") 0 "article" cacheV
        { cache := [], hits := 0, misses := 0, ttl_hours := 24 })).1 =
      some { cacheV with cached := true } ∧
    (cache_get (fun _ => "k") (fun _ => 1) 0 " ARTICLE "
      (cache_set (fun _ => "k") 0 "article" cacheV
        { cache := [], hits := 0, misses := 0, ttl_hours := 24 })).1 =
      some { cacheV with cached := true } ∧
    (cache_get (fun _ => "k") (fun _ => 1) 100000 "article"
      { cache := [("k", { timestamp := 0, text_preview := "", result := cacheV })],
        hits := 0, misses := 0, ttl_hours := 24 }).1 = none ∧
    alookup ((cache_get (fun _ => "k") (fun _ => 1) 100000 "article"
      { cache := [("k", { timestamp := 0, text_preview := "", result := cacheV })],
        hits := 0, misses := 0, ttl_hours := 24 }).2).cache
      (generate_key (fun _ => "k") "article") = none := by
  obtain ⟨h1, h2, h3⟩ := cache_round_trip (fun _ => "k") (fun _ => 1) 0 "article"
    " ARTICLE " cacheV { cache := [], hits := 0, misses := 0, ttl_hours := 24 }
    (by norm_num) (by decide)
  obtain ⟨h4, h5⟩ := (cache_round_trip (fun _ => "k") (fun _ => 1) 0 "article"
    "article" cacheV
    { cache := [("k", { timestamp := 0, text_preview := "", result := cacheV })],
      hits := 0, misses := 0, ttl_hours := 24 }
    (by norm_num) rfl).2.2
    { timestamp := 0, text_preview := "", result := cacheV } 100000
    (by simp) rfl (by norm_num)
  exact ⟨h1, h2, h4, h5⟩

/-- `get` never changes the configured TTL. -/
theorem cache_get_preserves_ttl (hashFn : String → String) (pyHash : String → ℕ)
    (now : ℚ) (u : String) (st : CacheState) :
    ((cache_get hashFn pyHash now u st).2).ttl_hours = st.ttl_hours := by
  simp only [cache_get]
  split_ifs with hc <;>
    · split
      · rfl
      · split_ifs <;> rfl

/-- C10: a cache hit returns the stored result with its `cached` key set in
place — the flag is written into the stored entry itself (source returns
the stored dict object), so the stored result carries `cached = true` and
every subsequent hit on the same entry returns it with the flag still
set. -/
theorem cache_hit_writes_flag (hashFn : String → String) (pyHash : String → ℕ)
    (now now2 : ℚ) (t : String) (V : AggResult) (st : CacheState)
    (httl : 0 ≤ st.ttl_hours)
    (hfresh2 : ¬(now + st.ttl_hours * 3600 < now2)) :
    (cache_get hashFn pyHash now t (cache_set hashFn now t V st)).1 =
      some { V with cached := true } ∧
    (alookup ((cache_get hashFn pyHash now t (cache_set hashFn now t V st)).2).cache
      (generate_key hashFn t)).map CacheEntry.result =
      some { V with cached := true } ∧
    (cache_get hashFn pyHash now2 t
      ((cache_get hashFn pyHash now t (cache_set hashFn now t V st)).2)).1 =
      some { V with cached := true } := by
  have hl0 := alookup_aset st.cache (generate_key hashFn t)
    ({ timestamp := now,
       text_preview := if 100 < t.length then t.take 100 ++ "..." else t,
       result := V })
  have hfr : ¬(now + st.ttl_hours * 3600 < now) := by
    intro hcon
    nlinarith [mul_nonneg httl (by norm_num : (0:ℚ) ≤ 3600)]
  obtain ⟨h1, h2⟩ := cache_get_fresh hashFn pyHash now t
    (cache_set hashFn now t V st) _ hl0 hfr
  refine ⟨h1, ?_, ?_⟩
  · rw [h2]
    rfl
  · have httl2 : ((cache_get hashFn pyHash now t
        (cache_set hashFn now t V st)).2).ttl_hours = st.ttl_hours :=
      cache_get_preserves_ttl hashFn pyHash now t (cache_set hashFn now t V st)
    have hfr2 : ¬(now + ((cache_get hashFn pyHash now t
        (cache_set hashFn now t V st)).2).ttl_hours * 3600 < now2) := by
      rw [httl2]
      exact hfresh2
    exact (cache_get_fresh hashFn pyHash now2 t
      ((cache_get hashFn pyHash now t (cache_set hashFn now t V st)).2) _ h2 hfr2).1

/-- A concrete verdict for the C10 witness. -/
def cacheV2 : AggResult :=
  { prediction := "FAKE", fake_probability := 0.8, confidence := 0.7,
    models_used := [], model_scores := [], indicators := [],
    indicator_details := [], explanation := "", processing_time := 0,
    timestamp := "", cached := false }

/-- Witness for C10 at a concrete text, verdict and state. -/
theorem cache_hit_writes_flag_witness :
    (cache_get (fun _ => "k") (fun _ => 1) 0 "a"
      (cache_set (fun _ => "k") 0 "a" cacheV2
        { cache := [], hits := 0, misses := 0, ttl_hours := 24 })).1 =
      some { cacheV2 with cached := true } ∧
    (alookup ((cache_get (fun _ => "k") (fun _ => 1) 0 "a"
      (cache_set (fun _ => "k") 0 "a" cacheV2
        { cache := [], hits := 0, misses := 0, ttl_hours := 24 })).2).cache
      (generate_key (fun _ => "k") "a")).map CacheEntry.result =
      some { cacheV2 with cached := true } ∧
    (cache_get (fun _ => "k") (fun _ => 1) 1 "a"
      ((cache_get (fun _ => "k") (fun _ => 1) 0 "a"
        (cache_set (fun _ => "k") 0 "a" cacheV2
          { cache := [], hits := 0, misses := 0, ttl_hours := 24 })).2)).1 =
      some { cacheV2 with cached := true } :=
  cache_hit_writes_flag (fun _ => "k") (fun _ => 1) 0 1 "a" cacheV2
    { cache := [], hits := 0, misses := 0, ttl_hours := 24 }
    (by norm_num) (by norm_num)
